import Mathlib

/-!
Verification of the auth/session core of the `backend-101/final-project`
to-do API (`main.py`): JWT access/refresh tokens, an in-memory
refresh-token registry (`active_refresh_tokens`), user registration,
login, refresh, role checks and user deletion.

The embedding models Python dictionaries as association lists with
Python-dict insertion/erase semantics, JWT signing as a record that
carries the claims together with the secret and algorithm used to sign
(an idealised signature scheme: verification succeeds exactly when the
verifier's secret and algorithm match the signer's), and bcrypt as an
idealised salted hash (`checkpw` succeeds exactly when the password
matches the one that was hashed).  Wall-clock time and the
nondeterministic inputs (`uuid4`, `bcrypt.gensalt`) are passed in as
explicit parameters.
-/

namespace TodoAuth

/-- Python-dict lookup on an association list: the value of the first
entry whose key matches, if any. -/
def dlookup {β : Type} : List (String × β) → String → Option β
  | [], _ => none
  | (k', v) :: rest, k => if k' = k then some v else dlookup rest k

/-- Python-dict assignment `d[k] = v`: replace the value in place when
the key is present, otherwise append the new entry at the end. -/
def dinsert {β : Type} : List (String × β) → String → β → List (String × β)
  | [], k, v => [(k, v)]
  | (k', v') :: rest, k, v =>
      if k' = k then (k, v) :: rest else (k', v') :: dinsert rest k v

/-- Python-dict deletion `del d[k]`: remove the (unique, in a dict)
entry with the given key. -/
def derase {β : Type} : List (String × β) → String → List (String × β)
  | [], _ => []
  | (k', v') :: rest, k =>
      if k' = k then rest else (k', v') :: derase rest k

/-- A dict never holds two entries with the same key. -/
def keysNodup {β : Type} (d : List (String × β)) : Prop :=
  (d.map Prod.fst).Nodup

/-- Configuration read from the environment at startup
(`SECRET_KEY`, `ALGORITHM`, `ACCESS_TOKEN_EXPIRE_MINUTES`,
`REFRESH_TOKEN_EXPIRE_DAYS`).  Time is measured in seconds. -/
structure Config where
  secret_key : String
  algorithm : String
  access_token_expire_minutes : Nat
  refresh_token_expire_days : Nat
deriving DecidableEq, Repr

/-- A JWT claim set.  `payload.get("sub") / ("role") / ("name") / ("id")`
are optional; every token produced by this application carries an
`exp` timestamp. -/
structure Claims where
  sub : Option String
  role : Option String
  name : Option String
  tokenId : Option String
  exp : Nat
deriving DecidableEq, Repr

/-- A signed JWT, modelled as the claims plus the secret and algorithm
that produced the signature. -/
structure Token where
  claims : Claims
  secret : String
  alg : String
deriving DecidableEq, Repr

/-- `jwt.encode(to_encode, secret, algorithm=alg)`. -/
def jwt_encode (claims : Claims) (secret : String) (alg : String) : Token :=
  ⟨claims, secret, alg⟩

/-- The two failure modes of `jwt.decode`: `ExpiredSignatureError`
(a subclass of `JWTError`) and every other `JWTError` (bad signature,
wrong algorithm, malformed token). -/
inductive JwtError where
  | invalid
  | expired
deriving DecidableEq, Repr

/-- `jwt.decode(token, secret, algorithms=[alg])`: the signature check
(secret and algorithm) comes first; only a token whose signature
verifies can fail with `ExpiredSignatureError`, which is raised when
the current time is past the embedded `exp`. -/
def jwt_decode (t : Token) (secret : String) (alg : String) (now : Nat) :
    Except JwtError Claims :=
  if t.secret = secret ∧ t.alg = alg then
    if t.claims.exp < now then .error .expired else .ok t.claims
  else .error .invalid

/-- An idealised bcrypt hash: `bcrypt.hashpw(pw, salt)` records the salt
and the password. -/
structure BcryptHash where
  salt : String
  pw : String
deriving DecidableEq, Repr

/-- `bcrypt.hashpw(password, salt)`. -/
def hashpw (password : String) (salt : String) : BcryptHash :=
  ⟨salt, password⟩

/-- `bcrypt.checkpw(password, stored_hash)`. -/
def checkpw (password : String) (stored : BcryptHash) : Bool :=
  stored.pw = password

/-- An account record of the user store (`class User`). -/
structure User where
  id : Nat
  name : String
  email : String
  role : String
deriving DecidableEq, Repr

/-- A registry entry of `active_refresh_tokens`:
`{"email": ..., "expires_at": ...}`. -/
structure RefreshEntry where
  email : String
  expires_at : Nat
deriving DecidableEq, Repr

/-- `raise HTTPException(status_code=..., detail=...)`. -/
structure HTTPError where
  status : Nat
  detail : String
deriving DecidableEq, Repr

/-- The process-wide mutable state: `users`, `_next_user_id_user`,
`user_passwords` and `active_refresh_tokens`. -/
structure AppState where
  users : List User
  next_user_id : Nat
  user_passwords : List (String × BcryptHash)
  active_refresh_tokens : List (String × RefreshEntry)
deriving DecidableEq, Repr

/-- `create_access_token(data)`: copy the claims, overwrite `exp` with
`now + access_token_expire_minutes` and sign with the process secret
and algorithm. -/
def create_access_token (cfg : Config) (now : Nat) (data : Claims) : Token :=
  jwt_encode { data with exp := now + cfg.access_token_expire_minutes * 60 }
    cfg.secret_key cfg.algorithm

/-- `create_refresh_token(data)`: read `email = data["sub"]` (a missing
key is a `KeyError`, modelled as `none`), build the claim set
`{"sub": email, "id": token_id, "exp": now + refresh_token_expire_days}`,
sign it, and record `token_id → {"email": email, "expires_at": expire}`
in `active_refresh_tokens`.  `token_id` is the fresh `uuid4()`. -/
def create_refresh_token (cfg : Config) (now : Nat) (token_id : String)
    (data : Claims) (reg : List (String × RefreshEntry)) :
    Option (Token × List (String × RefreshEntry)) :=
  match data.sub with
  | none => none
  | some email =>
      let expire := now + cfg.refresh_token_expire_days * 86400
      let tok := jwt_encode ⟨some email, none, none, some token_id, expire⟩
        cfg.secret_key cfg.algorithm
      some (tok, dinsert reg token_id ⟨email, expire⟩)

/-- `verify_access_token(token)`: any `JWTError` (expiry included)
becomes a single `401 "Invalid or expired token"`. -/
def verify_access_token (cfg : Config) (now : Nat) (token : Token) :
    Except HTTPError Claims :=
  match jwt_decode token cfg.secret_key cfg.algorithm now with
  | .ok payload => .ok payload
  | .error _ => .error ⟨401, "Invalid or expired token"⟩

/-- Python's `str.strip()`: drop whitespace from both ends. -/
def pystrip (s : String) : String :=
  ⟨((s.data.dropWhile Char.isWhitespace).reverse.dropWhile
      Char.isWhitespace).reverse⟩

/-- Request body of `POST /auth/register`. -/
structure RegisterRequest where
  name : String
  email : String
  password : String
  role : String
deriving DecidableEq, Repr

/-- The pydantic field validators of `RegisterRequest`: the name must
not be blank after stripping, and the password must be at least six
characters long. -/
def register_request_valid (data : RegisterRequest) : Bool :=
  ¬ pystrip data.name = "" ∧ 6 ≤ data.password.length

/-- The duplicate-email scan of `register_user` / `create_user`. -/
def email_taken : List User → String → Bool
  | [], _ => false
  | u :: rest, e => if u.email = e then true else email_taken rest e

/-- The handler body of `POST /auth/register` (after request
validation): reject a taken email with 400, otherwise append the new
account (name stripped), bump the id counter, and store the salted
bcrypt hash of the password under the email.  `salt` is the fresh
`bcrypt.gensalt()`. -/
def register_user (st : AppState) (salt : String) (data : RegisterRequest) :
    Except HTTPError User × AppState :=
  if email_taken st.users data.email then
    (.error ⟨400, "Пользователь с таким email уже существует"⟩, st)
  else
    let new_user : User := ⟨st.next_user_id, pystrip data.name, data.email, data.role⟩
    (.ok new_user,
      { st with
          users := st.users ++ [new_user]
          next_user_id := st.next_user_id + 1
          user_passwords :=
            dinsert st.user_passwords data.email (hashpw data.password salt) })

/-- `POST /auth/register` as observed over HTTP: FastAPI runs the
pydantic validators before the handler and turns a validation failure
into a `422 Unprocessable Entity` response. -/
def register_endpoint (st : AppState) (salt : String) (data : RegisterRequest) :
    Except HTTPError User × AppState :=
  if register_request_valid data then register_user st salt data
  else (.error ⟨422, "Unprocessable Entity"⟩, st)

/-- Request body of `POST /auth/login`. -/
structure LoginRequest where
  email : String
  password : String
deriving DecidableEq, Repr

/-- Success body of `POST /auth/login`. -/
structure LoginResponse where
  message : String
  access_token : Token
  refresh_token : Token
deriving DecidableEq, Repr

/-- The first-match scan `next((u for u in users if u.email == email), None)`
(also the loop in `login_user`). -/
def find_user_by_email : List User → String → Option User
  | [], _ => none
  | u :: rest, e => if u.email = e then some u else find_user_by_email rest e

/-- The revocation sweep of `login_user`: collect every
`active_refresh_tokens` key whose entry's email matches and delete
them all. -/
def revoke_all_for : List (String × RefreshEntry) → String →
    List (String × RefreshEntry)
  | [], _ => []
  | (k, v) :: rest, e =>
      if v.email = e then revoke_all_for rest e
      else (k, v) :: revoke_all_for rest e

/-- The handler of `POST /auth/login`: reject empty email or password
with 400, an unknown email with 404, a missing stored hash or a failed
`bcrypt.checkpw` with 400; on success sweep all refresh tokens owned by
the email, then issue an access token and a registered refresh token
(`token_id` is the fresh `uuid4()`).  The unreachable `KeyError` branch
mirrors `data["sub"]` in `create_refresh_token`, whose argument here
always carries `"sub"`. -/
def login_user (cfg : Config) (now : Nat) (token_id : String)
    (st : AppState) (data : LoginRequest) :
    Except HTTPError LoginResponse × AppState :=
  if data.email = "" ∨ data.password = "" then
    (.error ⟨400, "Email и пароль обязательны"⟩, st)
  else
    match find_user_by_email st.users data.email with
    | none => (.error ⟨404, "Пользователь с таким email не найден"⟩, st)
    | some user =>
        match dlookup st.user_passwords data.email with
        | none => (.error ⟨400, "Неверный email или пароль"⟩, st)
        | some saved =>
            if checkpw data.password saved then
              let reg := revoke_all_for st.active_refresh_tokens data.email
              let token := create_access_token cfg now
                ⟨some user.email, some user.role, some user.name, none, 0⟩
              match create_refresh_token cfg now token_id
                  ⟨some user.email, none, none, none, 0⟩ reg with
              | some (refresh_token, reg') =>
                  (.ok ⟨"Добро пожаловать, " ++ user.name ++ "!",
                      token, refresh_token⟩,
                    { st with active_refresh_tokens := reg' })
              | none => (.error ⟨500, "KeyError"⟩, st)
            else (.error ⟨400, "Неверный email или пароль"⟩, st)

/-- `check_user_role(token_data, required_role)`: 403 when
`token_data.get("role")` differs from the required role (a missing
role also differs); otherwise return normally. -/
def check_user_role (token_data : Claims) (required_role : String) :
    Except HTTPError Unit :=
  if ¬ token_data.role = some required_role then
    .error ⟨403, "Access denied: requires " ++ required_role ++ " role"⟩
  else .ok ()

/-- Success body of `POST /auth/refresh`: a new access token only. -/
structure RefreshResponse where
  access_token : Token
deriving DecidableEq, Repr

/-- The handler of `POST /auth/refresh`: decode the presented token
(`ExpiredSignatureError` → 401 "Refresh token expired", other
`JWTError` → 401 "Invalid token"), require `payload.get("id")` to be an
active registry key (a missing id is never a key) → otherwise 401,
require a non-empty `payload.get("sub")` → otherwise 401, look up the
account → 404 when gone; then delete the registry entry and return a
fresh access token.  The refresh token is not rotated. -/
def refresh_access_token (cfg : Config) (now : Nat) (st : AppState)
    (refresh_token : Token) : Except HTTPError RefreshResponse × AppState :=
  match jwt_decode refresh_token cfg.secret_key cfg.algorithm now with
  | .error .expired => (.error ⟨401, "Refresh token expired"⟩, st)
  | .error .invalid => (.error ⟨401, "Invalid token"⟩, st)
  | .ok payload =>
      match payload.tokenId with
      | none => (.error ⟨401, "Refresh token is not active"⟩, st)
      | some token_id =>
          if (dlookup st.active_refresh_tokens token_id).isNone then
            (.error ⟨401, "Refresh token is not active"⟩, st)
          else if payload.sub.getD "" = "" then
            (.error ⟨401, "Invalid token"⟩, st)
          else
            match find_user_by_email st.users (payload.sub.getD "") with
            | none => (.error ⟨404, "User not found"⟩, st)
            | some user =>
                let new_access_token := create_access_token cfg now
                  ⟨some user.email, some user.role, some user.name, none, 0⟩
                (.ok ⟨new_access_token⟩,
                  { st with active_refresh_tokens :=
                      derase st.active_refresh_tokens token_id })

/-- `_find_user_index(user_id)`: the index of the first account with
the given id (`-1`, here `none`, when absent). -/
def find_user_index : List User → Nat → Option Nat
  | [], _ => none
  | u :: rest, uid =>
      if u.id = uid then some 0 else (find_user_index rest uid).map (· + 1)

/-- The handler of `DELETE /users/{user_id}`: 404 when the id is
unknown, otherwise pop the account from `users` (the other stores are
untouched). -/
def delete_user (st : AppState) (user_id : Nat) :
    Except HTTPError Unit × AppState :=
  match find_user_index st.users user_id with
  | none => (.error ⟨404, "Пользователь не найден"⟩, st)
  | some idx => (.ok (), { st with users := st.users.eraseIdx idx })

/-- The registry entries owned by an email, in registry order. -/
def owned_by : List (String × RefreshEntry) → String →
    List (String × RefreshEntry)
  | [], _ => []
  | (k, v) :: rest, e =>
      if v.email = e then (k, v) :: owned_by rest e else owned_by rest e

/-! Concrete fixtures used by witnesses and counterexamples. -/

/-- A concrete configuration. -/
def cfg0 : Config := ⟨"topsecret", "HS256", 15, 7⟩

/-- A concrete registered account. -/
def ann : User := ⟨1, "Ann", "ann@x.com", "user"⟩

/-- State after Ann registered with password `"secret1"`. -/
def stAnn : AppState :=
  ⟨[ann], 2, [("ann@x.com", hashpw "secret1" "salt0")], []⟩

/-- A refresh token issued to Ann with id `"tid1"`, signed with the
process secret, expiring at time `1000`. -/
def rtokAnn : Token :=
  jwt_encode ⟨some "ann@x.com", none, none, some "tid1", 1000⟩
    cfg0.secret_key cfg0.algorithm

/-- State after Ann registered and logged in: `"tid1"` is active. -/
def stAnnTok : AppState :=
  ⟨[ann], 2, [("ann@x.com", hashpw "secret1" "salt0")],
    [("tid1", ⟨"ann@x.com", 1000⟩)]⟩

/-- The empty startup state. -/
def stEmpty : AppState := ⟨[], 1, [], []⟩

/-- State whose account directory is empty while Ann's refresh token
`"tid1"` is still registered (Ann was deleted after logging in). -/
def stOrphan : AppState := ⟨[], 1, [], [("tid1", ⟨"ann@x.com", 1000⟩)]⟩

/-! Dictionary and scan lemmas. -/

theorem dlookup_dinsert_self {β : Type} (d : List (String × β)) (k : String)
    (v : β) : dlookup (dinsert d k v) k = some v := by
  induction d with
  | nil => simp [dinsert, dlookup]
  | cons p rest ih =>
      obtain ⟨k', v'⟩ := p
      by_cases h : k' = k
      · subst h; simp [dinsert, dlookup]
      · simp [dinsert, dlookup, h, ih]

theorem dlookup_dinsert_ne {β : Type} (d : List (String × β)) {k k' : String}
    (v : β) (h : k' ≠ k) : dlookup (dinsert d k v) k' = dlookup d k' := by
  have hns : ¬ k = k' := fun hh => h hh.symm
  induction d with
  | nil => simp [dinsert, dlookup, hns]
  | cons p rest ih =>
      obtain ⟨k₀, v₀⟩ := p
      by_cases hk : k₀ = k
      · subst hk
        simp [dinsert, dlookup, hns]
      · by_cases hk' : k₀ = k'
        · subst hk'; simp [dinsert, dlookup, hk]
        · simp [dinsert, dlookup, hk, hk', ih]

theorem dlookup_eq_none_of_not_mem {β : Type} (d : List (String × β))
    (k : String) (h : k ∉ d.map Prod.fst) : dlookup d k = none := by
  induction d with
  | nil => rfl
  | cons p rest ih =>
      obtain ⟨k', v'⟩ := p
      simp only [List.map_cons, List.mem_cons] at h
      push_neg at h
      obtain ⟨h1, h2⟩ := h
      have h1' : ¬ k' = k := fun hh => h1 hh.symm
      simp [dlookup, h1', ih h2]

theorem dlookup_derase_self {β : Type} (d : List (String × β)) (k : String)
    (hnd : keysNodup d) : dlookup (derase d k) k = none := by
  induction d with
  | nil => rfl
  | cons p rest ih =>
      obtain ⟨k', v'⟩ := p
      simp only [keysNodup, List.map_cons, List.nodup_cons] at hnd
      obtain ⟨hk, hrest⟩ := hnd
      by_cases h : k' = k
      · subst h
        simpa [derase] using dlookup_eq_none_of_not_mem rest k' hk
      · simp [derase, h, dlookup, ih hrest]

theorem dlookup_mem {β : Type} {d : List (String × β)} {k : String} {v : β}
    (h : dlookup d k = some v) : (k, v) ∈ d := by
  induction d with
  | nil => simp [dlookup] at h
  | cons p rest ih =>
      obtain ⟨k', v'⟩ := p
      by_cases hk : k' = k
      · subst hk
        simp [dlookup] at h
        subst h
        exact List.mem_cons_self _ _
      · simp only [dlookup, if_neg hk] at h
        exact List.mem_cons_of_mem _ (ih h)

theorem owned_by_of_mem {d : List (String × RefreshEntry)} {e k : String}
    {v : RefreshEntry} (hm : (k, v) ∈ d) (he : v.email = e) :
    (k, v) ∈ owned_by d e := by
  induction d with
  | nil => simp at hm
  | cons p rest ih =>
      obtain ⟨k', v'⟩ := p
      rcases List.mem_cons.mp hm with h | h
      · obtain ⟨hk, hv⟩ := Prod.mk.injEq .. ▸ h
        subst hk; subst hv
        simp [owned_by, he]
      · by_cases hv' : v'.email = e
        · simp [owned_by, hv', ih h]
        · simp [owned_by, hv', ih h]

theorem owned_by_revoke_all_for (d : List (String × RefreshEntry))
    (e : String) : owned_by (revoke_all_for d e) e = [] := by
  induction d with
  | nil => rfl
  | cons p rest ih =>
      obtain ⟨k, v⟩ := p
      by_cases h : v.email = e
      · simp [revoke_all_for, h, ih]
      · simp [revoke_all_for, h, owned_by, ih]

theorem owned_by_dinsert {d : List (String × RefreshEntry)} {k e : String}
    {v : RefreshEntry} (hv : v.email = e) (h : owned_by d e = []) :
    owned_by (dinsert d k v) e = [(k, v)] := by
  induction d with
  | nil => simp [dinsert, owned_by, hv]
  | cons p rest ih =>
      obtain ⟨k', v'⟩ := p
      have hne : ¬ v'.email = e := by
        intro hh
        simp [owned_by, hh] at h
      have hrest : owned_by rest e = [] := by
        simpa [owned_by, hne] using h
      by_cases hk : k' = k
      · subst hk; simp [dinsert, owned_by, hv, hne, hrest]
      · simp [dinsert, hk, owned_by, hne, ih hrest]

theorem find_user_by_email_email {l : List User} {e : String} {u : User}
    (h : find_user_by_email l e = some u) : u.email = e := by
  induction l with
  | nil => simp [find_user_by_email] at h
  | cons u' rest ih =>
      by_cases hu : u'.email = e
      · simp only [find_user_by_email, if_pos hu, Option.some.injEq] at h
        subst h; exact hu
      · simp only [find_user_by_email, if_neg hu] at h
        exact ih h

theorem find_user_index_spec {l : List User} {uid idx : Nat}
    (h : find_user_index l uid = some idx) :
    ∃ u, l[idx]? = some u ∧ u.id = uid := by
  induction l generalizing idx with
  | nil => simp [find_user_index] at h
  | cons u rest ih =>
      by_cases hu : u.id = uid
      · simp only [find_user_index, if_pos hu, Option.some.injEq] at h
        subst h
        exact ⟨u, by simp, hu⟩
      · simp only [find_user_index, if_neg hu, Option.map_eq_some'] at h
        obtain ⟨j, hj, hidx⟩ := h
        subst hidx
        simpa using ih hj

/-- `create_refresh_token` on a claim set that carries a subject:
the equation form used to reduce the call site inside `login_user`. -/
theorem create_refresh_token_some (cfg : Config) (now : Nat) (tid : String)
    (email : String) (role name tokenId : Option String) (exp : Nat)
    (reg : List (String × RefreshEntry)) :
    create_refresh_token cfg now tid ⟨some email, role, name, tokenId, exp⟩ reg =
      some (jwt_encode ⟨some email, none, none, some tid,
          now + cfg.refresh_token_expire_days * 86400⟩ cfg.secret_key cfg.algorithm,
        dinsert reg tid ⟨email, now + cfg.refresh_token_expire_days * 86400⟩) := rfl

/-- Characterisation of a successful `POST /auth/refresh`: when the
presented token verifies, its id is active, its subject is a non-empty
email of an existing account, the handler returns a fresh access token
for that account and deletes the registry entry. -/
theorem refresh_success_eq (cfg : Config) (now : Nat) (st : AppState)
    (rt : Token) (hsig : rt.secret = cfg.secret_key)
    (halg : rt.alg = cfg.algorithm) (hexp : ¬ rt.claims.exp < now)
    {tid : String} (htid : rt.claims.tokenId = some tid)
    (hactive : (dlookup st.active_refresh_tokens tid).isSome = true)
    {e : String} (hsub : rt.claims.sub = some e) (hne : ¬ e = "")
    {u : User} (huser : find_user_by_email st.users e = some u) :
    refresh_access_token cfg now st rt =
      (.ok ⟨create_access_token cfg now
          ⟨some u.email, some u.role, some u.name, none, 0⟩⟩,
        { st with active_refresh_tokens :=
            derase st.active_refresh_tokens tid }) := by
  obtain ⟨w, hw⟩ := Option.isSome_iff_exists.mp hactive
  simp [refresh_access_token, jwt_decode, hsig, halg, hexp, htid, hw, hsub,
    hne, huser]

/-- C4: the token verifier's two failure modes are distinguished: a
signature (secret/algorithm) mismatch fails with `JWTError`
(`invalid`), regardless of the claims; a verifying signature whose
embedded expiry lies before the current time fails with
`ExpiredSignatureError` (`expired`); on success the claim set is
returned unmodified. -/
theorem jwt_decode_failure_modes (t : Token) (secret alg : String)
    (now : Nat) :
    (jwt_decode t secret alg now = .error .invalid ↔
      ¬ (t.secret = secret ∧ t.alg = alg)) ∧
    (jwt_decode t secret alg now = .error .expired ↔
      ((t.secret = secret ∧ t.alg = alg) ∧ t.claims.exp < now)) ∧
    (∀ c, jwt_decode t secret alg now = .ok c → c = t.claims) := by
  by_cases h : t.secret = secret ∧ t.alg = alg
  · by_cases h2 : t.claims.exp < now
    · simp [jwt_decode, h, h2]
    · simp [jwt_decode, h, h2, eq_comm]
  · simp [jwt_decode, h]

/-- Witness for C4: a token signed with the wrong secret fails with
`invalid` even though it is also expired. -/
theorem jwt_decode_failure_modes_witness :
    jwt_decode (jwt_encode ⟨none, none, none, none, 5⟩ "other" "HS256")
      cfg0.secret_key cfg0.algorithm 10 = .error .invalid :=
  (jwt_decode_failure_modes _ _ _ _).1.mpr (by decide)

/-- C8: `check_user_role` authorizes by exact string equality on the
`role` claim: it returns normally exactly when the claim equals the
required role, and otherwise fails with 403; it is a pure gate on the
claims (it takes no store and returns no data). -/
theorem check_user_role_spec (c : Claims) (r : String) :
    (c.role = some r → check_user_role c r = .ok ()) ∧
    (¬ c.role = some r →
      check_user_role c r =
        .error ⟨403, "Access denied: requires " ++ r ++ " role"⟩) := by
  constructor <;> intro h <;> simp [check_user_role, h]

/-- Witness for C8: a `"user"` token on an `"admin"` gate is rejected
with 403. -/
theorem check_user_role_spec_witness :
    check_user_role ⟨some "ann@x.com", some "user", some "Ann", none, 900⟩
      "admin" = .error ⟨403, "Access denied: requires admin role"⟩ :=
  (check_user_role_spec _ _).2 (by decide)

/-- C3: whenever `create_refresh_token` returns a signed token, the
registry simultaneously maps the token's embedded id to the subject and
`now + refresh_ttl`; the token is never produced without the entry. -/
theorem create_refresh_token_registers (cfg : Config) (now : Nat)
    (token_id : String) (data : Claims) (reg : List (String × RefreshEntry))
    (tok : Token) (reg' : List (String × RefreshEntry))
    (h : create_refresh_token cfg now token_id data reg = some (tok, reg')) :
    ∃ subject, data.sub = some subject ∧
      tok = jwt_encode ⟨some subject, none, none, some token_id,
          now + cfg.refresh_token_expire_days * 86400⟩
        cfg.secret_key cfg.algorithm ∧
      dlookup reg' token_id =
        some ⟨subject, now + cfg.refresh_token_expire_days * 86400⟩ := by
  cases hs : data.sub with
  | none => simp [create_refresh_token, hs] at h
  | some subject =>
      rw [show data = ⟨some subject, data.role, data.name, data.tokenId,
          data.exp⟩ by cases data; cases hs; rfl,
        create_refresh_token_some] at h
      simp only [Option.some.injEq, Prod.mk.injEq] at h
      obtain ⟨htok, hreg⟩ := h
      subst htok
      subst hreg
      exact ⟨subject, rfl, rfl, dlookup_dinsert_self _ _ _⟩

/-- Witness for C3: issuing a refresh token for Ann into the empty
registry registers its id. -/
theorem create_refresh_token_registers_witness :
    ∃ subject,
      (⟨some "ann@x.com", none, none, none, 0⟩ : Claims).sub = some subject ∧
      jwt_encode ⟨some "ann@x.com", none, none, some "tid9", 604800⟩
          cfg0.secret_key cfg0.algorithm =
        jwt_encode ⟨some subject, none, none, some "tid9",
            0 + cfg0.refresh_token_expire_days * 86400⟩
          cfg0.secret_key cfg0.algorithm ∧
      dlookup [("tid9", (⟨"ann@x.com", 604800⟩ : RefreshEntry))] "tid9" =
        some ⟨subject, 0 + cfg0.refresh_token_expire_days * 86400⟩ :=
  create_refresh_token_registers cfg0 0 "tid9"
    ⟨some "ann@x.com", none, none, none, 0⟩ [] _ _ rfl

/-- C1: refresh tokens are single-use: a refresh token that verifies,
whose id is active in the registry and whose subject's account exists,
is redeemed successfully, its id is no longer in the registry in the
resulting state, and the same refresh call repeated immediately on that
state fails with 401 ("Refresh token is not active"). -/
theorem refresh_token_single_use (cfg : Config) (now : Nat) (st : AppState)
    (rt : Token) (hnd : keysNodup st.active_refresh_tokens)
    (hsig : rt.secret = cfg.secret_key) (halg : rt.alg = cfg.algorithm)
    (hexp : ¬ rt.claims.exp < now)
    (tid : String) (htid : rt.claims.tokenId = some tid)
    (hactive : (dlookup st.active_refresh_tokens tid).isSome = true)
    (e : String) (hsub : rt.claims.sub = some e) (hne : ¬ e = "")
    (u : User) (huser : find_user_by_email st.users e = some u) :
    ∃ resp st',
      refresh_access_token cfg now st rt = (.ok resp, st') ∧
      dlookup st'.active_refresh_tokens tid = none ∧
      refresh_access_token cfg now st' rt =
        (.error ⟨401, "Refresh token is not active"⟩, st') := by
  have hnone : dlookup (derase st.active_refresh_tokens tid) tid = none :=
    dlookup_derase_self _ _ hnd
  refine ⟨_, _,
    refresh_success_eq cfg now st rt hsig halg hexp htid hactive hsub hne huser,
    hnone, ?_⟩
  simp [refresh_access_token, jwt_decode, hsig, halg, hexp, htid, hnone]

/-- Witness for C1: Ann redeems `"tid1"`; redeeming it again fails. -/
theorem refresh_token_single_use_witness :
    ∃ resp st',
      refresh_access_token cfg0 0 stAnnTok rtokAnn = (.ok resp, st') ∧
      dlookup st'.active_refresh_tokens "tid1" = none ∧
      refresh_access_token cfg0 0 st' rtokAnn =
        (.error ⟨401, "Refresh token is not active"⟩, st') :=
  refresh_token_single_use cfg0 0 stAnnTok rtokAnn (by simp [keysNodup, stAnnTok])
    rfl rfl (by decide) "tid1" rfl (by decide) "ann@x.com" rfl (by decide)
    ann (by decide)

/-- C6: a refresh request that fails — for any reason — returns the
state unchanged: no registry entry is added or removed (and the other
stores are untouched as well). -/
theorem refresh_failure_preserves_state (cfg : Config) (now : Nat)
    (st : AppState) (rt : Token) (err : HTTPError) (st' : AppState)
    (h : refresh_access_token cfg now st rt = (.error err, st')) :
    st' = st := by
  unfold refresh_access_token at h
  repeat' split at h
  all_goals simp_all

/-- Witness for C6: a refresh that fails with 404 because the account
was deleted leaves the registry (with the still-active `"tid1"`)
unchanged. -/
theorem refresh_failure_preserves_state_witness :
    ∃ st', refresh_access_token cfg0 0 stOrphan rtokAnn =
        (.error ⟨404, "User not found"⟩, st') ∧ st' = stOrphan :=
  ⟨stOrphan, rfl,
    refresh_failure_preserves_state cfg0 0 stOrphan rtokAnn _ _ rfl⟩

/-- C7: a successful refresh returns a new access token only: its
claims carry the refresh token's subject (which the looked-up account's
email equals), the account's role and name, and expire at
`now + access_ttl`; the registry merely loses the redeemed id and the
other stores are unchanged — no replacement refresh token is issued. -/
theorem refresh_issues_access_token_only (cfg : Config) (now : Nat)
    (st : AppState) (rt : Token)
    (hsig : rt.secret = cfg.secret_key) (halg : rt.alg = cfg.algorithm)
    (hexp : ¬ rt.claims.exp < now)
    (tid : String) (htid : rt.claims.tokenId = some tid)
    (hactive : (dlookup st.active_refresh_tokens tid).isSome = true)
    (e : String) (hsub : rt.claims.sub = some e) (hne : ¬ e = "")
    (u : User) (huser : find_user_by_email st.users e = some u) :
    ∃ st',
      refresh_access_token cfg now st rt =
        (.ok ⟨jwt_encode ⟨some u.email, some u.role, some u.name, none,
            now + cfg.access_token_expire_minutes * 60⟩
          cfg.secret_key cfg.algorithm⟩, st') ∧
      u.email = e ∧
      st'.users = st.users ∧
      st'.user_passwords = st.user_passwords ∧
      st'.active_refresh_tokens = derase st.active_refresh_tokens tid := by
  refine ⟨{ st with active_refresh_tokens := derase st.active_refresh_tokens tid },
    ?_, find_user_by_email_email huser, rfl, rfl, rfl⟩
  simpa [create_access_token, jwt_encode] using
    refresh_success_eq cfg now st rt hsig halg hexp htid hactive hsub hne huser

/-- Witness for C7: redeeming `"tid1"` yields Ann's fresh access token
and only removes the registry entry. -/
theorem refresh_issues_access_token_only_witness :
    ∃ st',
      refresh_access_token cfg0 0 stAnnTok rtokAnn =
        (.ok ⟨jwt_encode ⟨some ann.email, some ann.role, some ann.name, none,
            0 + cfg0.access_token_expire_minutes * 60⟩
          cfg0.secret_key cfg0.algorithm⟩, st') ∧
      ann.email = "ann@x.com" ∧
      st'.users = stAnnTok.users ∧
      st'.user_passwords = stAnnTok.user_passwords ∧
      st'.active_refresh_tokens =
        derase stAnnTok.active_refresh_tokens "tid1" :=
  refresh_issues_access_token_only cfg0 0 stAnnTok rtokAnn rfl rfl (by decide)
    "tid1" rfl (by decide) "ann@x.com" rfl (by decide) ann (by decide)

/-- C2: a successful login first sweeps every registry entry owned by
the email and then registers exactly one fresh entry: afterwards the
entries owned by that email are exactly the newly issued one, so any
refresh-token id other than the new one is not an active token of that
email. -/
theorem login_single_active_lineage (cfg : Config) (now : Nat)
    (token_id : String) (st : AppState) (data : LoginRequest)
    (resp : LoginResponse) (st' : AppState)
    (h : login_user cfg now token_id st data = (.ok resp, st')) :
    owned_by st'.active_refresh_tokens data.email =
      [(token_id, ⟨data.email,
        now + cfg.refresh_token_expire_days * 86400⟩)] ∧
    (∀ tid' v, dlookup st'.active_refresh_tokens tid' = some v →
      v.email = data.email → tid' = token_id) := by
  unfold login_user at h
  split at h
  · simp at h
  · split at h
    · simp at h
    · rename_i user heq
      split at h
      · simp at h
      · rename_i saved hsaved
        split at h
        · simp only [create_refresh_token_some, Prod.mk.injEq,
            Except.ok.injEq] at h
          obtain ⟨-, hst⟩ := h
          subst hst
          have hue : user.email = data.email := find_user_by_email_email heq
          dsimp only
          rw [hue]
          have h1 : owned_by (dinsert
              (revoke_all_for st.active_refresh_tokens data.email) token_id
              ⟨data.email, now + cfg.refresh_token_expire_days * 86400⟩)
              data.email =
              [(token_id, ⟨data.email,
                now + cfg.refresh_token_expire_days * 86400⟩)] :=
            owned_by_dinsert rfl (owned_by_revoke_all_for _ _)
          refine ⟨h1, ?_⟩
          intro tid' v hv hvemail
          have hin := owned_by_of_mem (dlookup_mem hv) hvemail
          rw [h1] at hin
          simp only [List.mem_singleton, Prod.mk.injEq] at hin
          exact hin.1
        · simp at h

/-- Witness for C2: Ann logs in again while `"tid1"` is active; the
only entry owned by her afterwards is the fresh `"tid2"`. -/
theorem login_single_active_lineage_witness :
    owned_by (⟨[ann], 2, [("ann@x.com", hashpw "secret1" "salt0")],
        [("tid2", ⟨"ann@x.com", 604800⟩)]⟩ : AppState).active_refresh_tokens
      "ann@x.com" = [("tid2", ⟨"ann@x.com", 0 + cfg0.refresh_token_expire_days * 86400⟩)] :=
  (login_single_active_lineage cfg0 0 "tid2" stAnnTok ⟨"ann@x.com", "secret1"⟩
    ⟨"Добро пожаловать, Ann!",
      jwt_encode ⟨some "ann@x.com", some "user", some "Ann", none, 900⟩
        cfg0.secret_key cfg0.algorithm,
      jwt_encode ⟨some "ann@x.com", none, none, some "tid2", 604800⟩
        cfg0.secret_key cfg0.algorithm⟩
    ⟨[ann], 2, [("ann@x.com", hashpw "secret1" "salt0")],
      [("tid2", ⟨"ann@x.com", 604800⟩)]⟩ rfl).1

/-- Counterexample to C5 as stated: a login request whose email is not
in the account directory but whose password field is empty is answered
with 400 ("Email и пароль обязательны"), not 404 — the missing-fields
check runs before the directory lookup. -/
theorem login_failure_modes_counterexample :
    find_user_by_email stEmpty.users "ghost@x.com" = none ∧
    (login_user cfg0 0 "tid" stEmpty ⟨"ghost@x.com", ""⟩).1 =
      .error ⟨400, "Email и пароль обязательны"⟩ ∧
    ∀ d, ¬ (login_user cfg0 0 "tid" stEmpty ⟨"ghost@x.com", ""⟩).1 =
      .error ⟨404, d⟩ := by
  refine ⟨rfl, rfl, ?_⟩
  intro d h
  rw [show (login_user cfg0 0 "tid" stEmpty ⟨"ghost@x.com", ""⟩).1 =
      .error ⟨400, "Email и пароль обязательны"⟩ from rfl] at h
  have := congrArg HTTPError.status (Except.error.inj h)
  simp at this

/-- C5 amended: for every login request whose email and password fields
are both non-empty, an email absent from the account directory is
answered with 404, and a present email whose stored hash is absent or
does not match the presented password is answered with 400; in both
failure cases the state is returned unchanged. -/
theorem login_failure_modes_amended (cfg : Config) (now : Nat)
    (token_id : String) (st : AppState) (data : LoginRequest)
    (he : ¬ data.email = "") (hp : ¬ data.password = "") :
    (find_user_by_email st.users data.email = none →
      login_user cfg now token_id st data =
        (.error ⟨404, "Пользователь с таким email не найден"⟩, st)) ∧
    (∀ u, find_user_by_email st.users data.email = some u →
      (∀ hsh, dlookup st.user_passwords data.email = some hsh →
        checkpw data.password hsh = false) →
      login_user cfg now token_id st data =
        (.error ⟨400, "Неверный email или пароль"⟩, st)) := by
  constructor
  · intro hnone
    simp [login_user, he, hp, hnone]
  · intro u hu hpw
    cases hsv : dlookup st.user_passwords data.email with
    | none => simp [login_user, he, hp, hu, hsv]
    | some hsh => simp [login_user, he, hp, hu, hsv, hpw hsh hsv]

/-- Witness for C5 amended: a login for an unregistered email with a
non-empty password is answered with 404 and leaves the state alone. -/
theorem login_failure_modes_amended_witness :
    login_user cfg0 0 "tid" stAnn ⟨"bob@x.com", "hunter2"⟩ =
      (.error ⟨404, "Пользователь с таким email не найден"⟩, stAnn) :=
  (login_failure_modes_amended cfg0 0 "tid" stAnn ⟨"bob@x.com", "hunter2"⟩
    (by decide) (by decide)).1 (by decide)

/-- Counterexample to C9 as stated: a registration whose name is blank
(here a single space) is rejected by the pydantic field validators,
which FastAPI answers with 422 Unprocessable Entity, not 400. -/
theorem register_status_counterexample :
    pystrip (⟨" ", "ann@x.com", "longpass", "user"⟩ : RegisterRequest).name
      = "" ∧
    register_endpoint stEmpty "salt0" ⟨" ", "ann@x.com", "longpass", "user"⟩ =
      (.error ⟨422, "Unprocessable Entity"⟩, stEmpty) ∧
    ∀ d, ¬ (register_endpoint stEmpty "salt0"
        ⟨" ", "ann@x.com", "longpass", "user"⟩).1 = .error ⟨400, d⟩ := by
  refine ⟨by decide, rfl, ?_⟩
  intro d h
  rw [show (register_endpoint stEmpty "salt0"
      ⟨" ", "ann@x.com", "longpass", "user"⟩).1 =
      .error ⟨422, "Unprocessable Entity"⟩ from rfl] at h
  have := congrArg HTTPError.status (Except.error.inj h)
  simp at this

/-- C9 amended: a blank name or a password shorter than 6 characters is
rejected by request validation with 422; past validation, an already
taken email is rejected with 400; otherwise the account record is
created (201 route) and a salted bcrypt hash of the password is stored
under the email. -/
theorem register_user_amended (st : AppState) (salt : String)
    (data : RegisterRequest) :
    (register_request_valid data = false →
      register_endpoint st salt data =
        (.error ⟨422, "Unprocessable Entity"⟩, st)) ∧
    (register_request_valid data = true →
      email_taken st.users data.email = true →
      register_endpoint st salt data =
        (.error ⟨400, "Пользователь с таким email уже существует"⟩, st)) ∧
    (register_request_valid data = true →
      email_taken st.users data.email = false →
      ∃ st', register_endpoint st salt data =
          (.ok ⟨st.next_user_id, pystrip data.name, data.email, data.role⟩, st') ∧
        dlookup st'.user_passwords data.email =
          some (hashpw data.password salt) ∧
        checkpw data.password (hashpw data.password salt) = true ∧
        (hashpw data.password salt).salt = salt ∧
        st'.users = st.users ++
          [⟨st.next_user_id, pystrip data.name, data.email, data.role⟩] ∧
        st'.active_refresh_tokens = st.active_refresh_tokens) := by
  refine ⟨?_, ?_, ?_⟩
  · intro hv
    simp [register_endpoint, hv]
  · intro hv ht
    simp [register_endpoint, register_user, hv, ht]
  · intro hv ht
    refine ⟨{ st with
        users := st.users ++
          [⟨st.next_user_id, pystrip data.name, data.email, data.role⟩],
        next_user_id := st.next_user_id + 1,
        user_passwords :=
          dinsert st.user_passwords data.email (hashpw data.password salt) },
      by simp [register_endpoint, register_user, hv, ht],
      dlookup_dinsert_self _ _ _, by simp [checkpw, hashpw], rfl, rfl, rfl⟩

/-- Witness for C9 amended: registering Ann in the empty state stores
her record and a salted hash of `"secret1"` under her email. -/
theorem register_user_amended_witness :
    ∃ st', register_endpoint stEmpty "salt0"
        ⟨"Ann", "ann@x.com", "secret1", "user"⟩ =
        (.ok ⟨stEmpty.next_user_id, pystrip "Ann", "ann@x.com", "user"⟩, st') ∧
      dlookup st'.user_passwords "ann@x.com" =
        some (hashpw "secret1" "salt0") ∧
      checkpw "secret1" (hashpw "secret1" "salt0") = true ∧
      (hashpw "secret1" "salt0").salt = "salt0" ∧
      st'.users = stEmpty.users ++
        [⟨stEmpty.next_user_id, pystrip "Ann", "ann@x.com", "user"⟩] ∧
      st'.active_refresh_tokens = stEmpty.active_refresh_tokens :=
  (register_user_amended stEmpty "salt0"
    ⟨"Ann", "ann@x.com", "secret1", "user"⟩).2.2 (by decide) (by decide)

/-- C10: deleting an existing account mutates only the account
directory: the account at the found index is removed from `users`,
while the credential store and the refresh-token registry — including
every entry owned by the deleted account's email — are exactly as
before. -/
theorem delete_user_frame (st : AppState) (user_id : Nat) (idx : Nat)
    (h : find_user_index st.users user_id = some idx) :
    ∃ u, st.users[idx]? = some u ∧ u.id = user_id ∧
      delete_user st user_id =
        (.ok (), ⟨st.users.eraseIdx idx, st.next_user_id,
          st.user_passwords, st.active_refresh_tokens⟩) := by
  obtain ⟨u, hu, hid⟩ := find_user_index_spec h
  exact ⟨u, hu, hid, by simp [delete_user, h]⟩

/-- Witness for C10: deleting Ann from a state where her refresh token
is active keeps her password hash and her registry entry. -/
theorem delete_user_frame_witness :
    ∃ u, stAnnTok.users[0]? = some u ∧ u.id = 1 ∧
      delete_user stAnnTok 1 =
        (.ok (), ⟨stAnnTok.users.eraseIdx 0, stAnnTok.next_user_id,
          stAnnTok.user_passwords, stAnnTok.active_refresh_tokens⟩) :=
  delete_user_frame stAnnTok 1 0 (by decide)

end TodoAuth
